import Mathlib

/-!
Shallow embedding of the persona state synchronization and versioning
subsystem of the ada_voice_js repository: the persona data model, version
history capture on save, the single-slot undo around AI bulk edits, the
merge policies for extraction results, and the trailing-edge debounce
used for passive summary regeneration.

The embedding follows the richer source variant (the App component that
derives short forms at save time, together with PersonaEditorModal and
geminiService); the simpler App.tsx variant has the identical history
logic. Asynchronous AI gateway calls are modelled by passing each call
outcome (response text or failure) as an explicit argument, and the net
state transition of each React handler is a pure function on the
relevant state.
-/

set_option maxRecDepth 10000

namespace AdaVoice

/-- Web citation attached to a persona by web-search-backed generation. -/
structure WebSource where
  title : String
  uri : String
deriving Repr, DecidableEq

/-- Four-axis MBTI scores as produced by the gateway. -/
structure MbtiScores where
  mind : Nat
  energy : Nat
  nature : Nat
  tactics : Nat
deriving Repr, DecidableEq

/-- Structured personality classification attached to a persona. -/
structure MbtiProfile where
  type : String
  typeName : String
  description : String
  scores : MbtiScores
deriving Repr, DecidableEq

/-- The editable field set of a persona as held by the editor modal
(TypeScript interface PersonaState). Optional string fields are modelled
with the empty string as the absent value, matching how the code reads
them (JS treats both undefined and the empty string as falsy). -/
structure PersonaState where
  name : String
  role : String
  tone : String
  personality : String
  worldview : String
  experience : String
  other : String
  summary : String
  shortSummary : String
  shortTone : String
  mbtiProfile : Option MbtiProfile
  sources : List WebSource
deriving Repr, DecidableEq

/-- The snapshot stored in a history entry: the oldState object built in
handleSavePersona carries every PersonaState field except shortSummary
and shortTone. -/
structure HistorySnapshot where
  name : String
  role : String
  tone : String
  personality : String
  worldview : String
  experience : String
  other : String
  summary : String
  mbtiProfile : Option MbtiProfile
  sources : List WebSource
deriving Repr, DecidableEq

/-- One entry of the bounded version history. -/
structure PersonaHistoryEntry where
  state : HistorySnapshot
  timestamp : String
  changeSummary : String
deriving Repr, DecidableEq

/-- A stored persona: identity, current state, bounded history. The
TypeScript Persona interface flattens PersonaState via extends; the
embedding keeps the editable state as one field. -/
structure Persona where
  id : String
  state : PersonaState
  history : List PersonaHistoryEntry
deriving Repr, DecidableEq

/-- Outcome of one AI gateway text call: the response text, or a failure
(network error, timeout, unparseable output). -/
inductive GatewayOutcome where
  | ok (text : String)
  | failed
deriving Repr, DecidableEq

/-- Structured extraction result returned by the gateway under the
persona JSON schema: the first six fields are required by the schema,
the other field is optional. -/
structure ExtractedParams where
  name : String
  role : String
  tone : String
  personality : String
  worldview : String
  experience : String
  other : Option String
deriving Repr, DecidableEq

/-- Outcome of one structured extraction call. -/
inductive ExtractOutcome where
  | ok (params : ExtractedParams)
  | failed
deriving Repr, DecidableEq

/-- JS String.prototype.trim, modelled executably: drop whitespace from
both ends of the character sequence. -/
def jsTrim (s : String) : String :=
  String.mk (((s.toList.dropWhile Char.isWhitespace).reverse.dropWhile
      Char.isWhitespace).reverse)

/-- Truncation fallback used by generateShortSummary and
generateShortTone on gateway failure: the first 50 characters of the
input, plus an ellipsis when the input is longer. -/
def truncate50 (s : String) : String :=
  s.take 50 ++ (if 50 < s.length then "..." else "")

/-- geminiService.generateShortSummary: the empty string without any
gateway call when the input trims to empty; otherwise the trimmed
gateway text on success, or the truncation fallback on failure. -/
def generateShortSummary (call : GatewayOutcome) (fullSummary : String) : String :=
  if jsTrim fullSummary = "" then ""
  else
    match call with
    | GatewayOutcome.ok text => jsTrim text
    | GatewayOutcome.failed => truncate50 fullSummary

/-- geminiService.generateShortTone, identical shape to
generateShortSummary. -/
def generateShortTone (call : GatewayOutcome) (fullTone : String) : String :=
  if jsTrim fullTone = "" then ""
  else
    match call with
    | GatewayOutcome.ok text => jsTrim text
    | GatewayOutcome.failed => truncate50 fullTone

/-- The fixed generic change description substituted when the
change-summary call fails or returns blank text. -/
def genericChangeText : String := "パラメータが更新されました。"

/-- geminiService.generateChangeSummary: the trimmed gateway text when
present and non-empty, otherwise the fixed generic description; a
gateway failure is caught and never propagates. -/
def generateChangeSummary (call : GatewayOutcome) : String :=
  match call with
  | GatewayOutcome.ok text => if jsTrim text = "" then genericChangeText else jsTrim text
  | GatewayOutcome.failed => genericChangeText

/-- Gateway outcomes for the three calls one save may perform. -/
structure SaveGateway where
  shortSummaryCall : GatewayOutcome
  shortToneCall : GatewayOutcome
  changeSummaryCall : GatewayOutcome
deriving Repr, DecidableEq

/-- The all-failed gateway environment. -/
def gatewayAllFailed : SaveGateway :=
  { shortSummaryCall := GatewayOutcome.failed
  , shortToneCall := GatewayOutcome.failed
  , changeSummaryCall := GatewayOutcome.failed }

/-- The oldState object built in handleSavePersona from the stored
existing persona (everything except shortSummary and shortTone). -/
def snapshotOf (p : Persona) : HistorySnapshot :=
  { name := p.state.name, role := p.state.role, tone := p.state.tone
  , personality := p.state.personality, worldview := p.state.worldview
  , experience := p.state.experience, other := p.state.other
  , summary := p.state.summary, mbtiProfile := p.state.mbtiProfile
  , sources := p.state.sources }

/-- VersionHistory push as written in handleSavePersona: prepend the new
entry, keep the 10 most recent. -/
def pushHistory (entry : PersonaHistoryEntry) (history : List PersonaHistoryEntry) :
    List PersonaHistoryEntry :=
  (entry :: history).take 10

/-- App handleSavePersona. The argument now is the millisecond clock
value used for a fresh identity, ts the ISO timestamp string, draftId
the optional id carried by the draft (absent for a brand-new persona).
Returns the updated collection together with the saved persona. When the
draft id matches a stored persona, the update keeps that persona id:
in the source the object spread orders the existing persona first and
the matched draft carries the same id. -/
def handleSavePersona (gw : SaveGateway) (now : Nat) (ts : String)
    (personas : List Persona) (draft : PersonaState) (draftId : Option String) :
    List Persona × Persona :=
  let shortSummary :=
    if draft.summary = "" then "" else generateShortSummary gw.shortSummaryCall draft.summary
  let shortTone :=
    if draft.tone = "" then "" else generateShortTone gw.shortToneCall draft.tone
  let personaWithSummaries :=
    { draft with shortSummary := shortSummary, shortTone := shortTone }
  match personas.find? (fun p => decide (draftId = some p.id)) with
  | some existingPersona =>
      let oldState := snapshotOf existingPersona
      let changeSummary := generateChangeSummary gw.changeSummaryCall
      let newHistoryEntry : PersonaHistoryEntry :=
        { state := oldState, timestamp := ts, changeSummary := changeSummary }
      let updatedHistory := pushHistory newHistoryEntry existingPersona.history
      let updatedPersona : Persona :=
        { id := existingPersona.id, state := personaWithSummaries, history := updatedHistory }
      (personas.map (fun p => if p.id = updatedPersona.id then updatedPersona else p),
       updatedPersona)
  | none =>
      let newPersona : Persona :=
        { id := toString now, state := personaWithSummaries, history := [] }
      (personas ++ [newPersona], newPersona)

/-- PersonaEditorModal handleSave followed by the store save: rejected
with the validation message when the name is empty, in which case onSave
is never invoked, so no history entry, no identity and no collection
change exist; otherwise the store save runs. -/
def saveFromEditor (gw : SaveGateway) (now : Nat) (ts : String)
    (personas : List Persona) (draft : PersonaState) (draftId : Option String) :
    Except String (List Persona × Persona) :=
  if draft.name = "" then Except.error "Persona name is required."
  else Except.ok (handleSavePersona gw now ts personas draft draftId)

/-- Inputs of one handleSavePersona invocation, for iterating saves. -/
structure SaveRequest where
  gw : SaveGateway
  now : Nat
  ts : String
  draft : PersonaState
  draftId : Option String
deriving Repr, DecidableEq

/-- A sequence of saves applied to the persona collection. -/
def saveSteps (personas : List Persona) (steps : List SaveRequest) : List Persona :=
  steps.foldl
    (fun ps s => (handleSavePersona s.gw s.now s.ts ps s.draft s.draftId).1) personas

/-- Editor modal state relevant to the claims: the live parameters and
the single-slot undo snapshot previousParameters. -/
structure EditorState where
  parameters : PersonaState
  previousParameters : Option PersonaState
deriving Repr, DecidableEq

/-- Object spread of a history snapshot over the current parameters as
written in handleRevert: every field captured in the snapshot replaces
the current value; fields not captured (shortSummary, shortTone) keep
their current value. -/
def applySnapshot (p : PersonaState) (s : HistorySnapshot) : PersonaState :=
  { p with name := s.name, role := s.role, tone := s.tone,
           personality := s.personality, worldview := s.worldview,
           experience := s.experience, other := s.other, summary := s.summary,
           mbtiProfile := s.mbtiProfile, sources := s.sources }

/-- PersonaEditorModal handleRevert: apply the snapshot over the live
parameters and clear the undo slot. -/
def handleRevert (st : EditorState) (entry : PersonaHistoryEntry) : EditorState :=
  { parameters := applySnapshot st.parameters entry.state
  , previousParameters := none }

/-- PersonaEditorModal handleUndo: restore and clear the snapshot when
one is armed, otherwise do nothing. -/
def handleUndo (st : EditorState) : EditorState :=
  match st.previousParameters with
  | some p => { parameters := p, previousParameters := none }
  | none => st

/-- Object spread of an extraction result over the current parameters,
as used by handleSyncFromSummary: the six schema-required fields always
replace, the optional other field replaces only when present. -/
def mergeExtracted (p : PersonaState) (e : ExtractedParams) : PersonaState :=
  { p with name := e.name, role := e.role, tone := e.tone,
           personality := e.personality, worldview := e.worldview,
           experience := e.experience,
           other := match e.other with | some o => o | none => p.other }

/-- JS logical-or on strings: the empty string is falsy. -/
def jsOrElse (a b : String) : String := if a = "" then b else a

/-- The merge in handleExtractFromDoc: spread the extraction result,
then set other to the previous other, or else the extracted other, or
else the empty string (an absent extracted other reads as empty). -/
def mergeExtractedDoc (p : PersonaState) (e : ExtractedParams) : PersonaState :=
  { mergeExtracted p e with other := jsOrElse p.other (e.other.getD "") }

/-- PersonaEditorModal handleSyncFromSummary, net state transition: bail
when the summary trims to empty; otherwise the pre-call parameters are
armed in the undo slot, then the result merges on success, while on
failure the slot is cleared and the parameters stay untouched. -/
def handleSyncFromSummary (st : EditorState) (call : ExtractOutcome) : EditorState :=
  if jsTrim st.parameters.summary = "" then st
  else
    match call with
    | ExtractOutcome.ok e =>
        { parameters := mergeExtracted st.parameters e
        , previousParameters := some st.parameters }
    | ExtractOutcome.failed =>
        { parameters := st.parameters, previousParameters := none }

/-- handleExtractFromDoc, net state transition: bail on an empty
reference document; otherwise arm the undo slot, then merge with the
other-preserving policy on success, or clear the slot on failure. -/
def handleExtractFromDoc (st : EditorState) (referenceText : String)
    (call : ExtractOutcome) : EditorState :=
  if referenceText = "" then st
  else
    match call with
    | ExtractOutcome.ok e =>
        { parameters := mergeExtractedDoc st.parameters e
        , previousParameters := some st.parameters }
    | ExtractOutcome.failed =>
        { parameters := st.parameters, previousParameters := none }

/-- The request state built by handleGenerateSummary: none when the name
is empty (fail fast, nothing sent); otherwise the parameters with the
summary field blanked before the request is built. -/
def buildSummaryRequest (p : PersonaState) : Option PersonaState :=
  if p.name = "" then none else some { p with summary := "" }

/-- handleGenerateSummary, net state transition on the editor state: no
request and no change when the name is empty; otherwise the gateway text
replaces the summary on success and the state is unchanged on failure. -/
def handleGenerateSummary (st : EditorState) (call : GatewayOutcome) : EditorState :=
  match buildSummaryRequest st.parameters with
  | none => st
  | some _ =>
      match call with
      | GatewayOutcome.ok text =>
          { st with parameters := { st.parameters with summary := text } }
      | GatewayOutcome.failed => st

/-- Trailing-edge debounce over a finite, time-ordered call sequence:
each call cancels a timer still pending (the next call arrives strictly
inside the wait window) and schedules the callback wait after itself;
the result lists the timers that survive, each carrying the argument of
the call that set it. -/
def debounceFires (wait : Nat) : List (Nat × PersonaState) → List (Nat × PersonaState)
  | [] => []
  | [(t, a)] => [(t + wait, a)]
  | (t, a) :: (u, b) :: rest =>
      if u < t + wait then debounceFires wait ((u, b) :: rest)
      else (t + wait, a) :: debounceFires wait ((u, b) :: rest)

/-- Concrete editor state used by witnesses: a persona named Ada with a
non-empty summary and everything else empty. -/
def adaState : PersonaState :=
  { name := "Ada", role := "", tone := "", personality := "", worldview := ""
  , experience := "", other := "", summary := "hello", shortSummary := ""
  , shortTone := "", mbtiProfile := none, sources := [] }

/-- Concrete stored persona used by witnesses. -/
def adaPersona : Persona := { id := "1", state := adaState, history := [] }

/-- Concrete history entry used by witnesses. -/
def adaEntry : PersonaHistoryEntry :=
  { state := snapshotOf adaPersona, timestamp := "t0", changeSummary := "edit" }

/-- Concrete editor modal state used by witnesses. -/
def adaEditor : EditorState := { parameters := adaState, previousParameters := none }

/-- Concrete editor modal state whose persona has no name, used by
witnesses. -/
def namelessEditor : EditorState :=
  { parameters := { adaState with name := "" }, previousParameters := none }

/-- Concrete extraction result used by witnesses: the six required
fields present, the optional other field absent. -/
def detectiveParams : ExtractedParams :=
  { name := "Ada", role := "Detective", tone := "curt", personality := "stoic"
  , worldview := "noir", experience := "years on the force", other := none }

/-!  Helper lemmas shared by the claim theorems. -/

theorem jsTrim_empty : jsTrim "" = "" := rfl

theorem pushHistory_eq (entry : PersonaHistoryEntry) (h : List PersonaHistoryEntry) :
    pushHistory entry h = entry :: h.take 9 := by
  simp [pushHistory]

theorem pushHistory_length_le (entry : PersonaHistoryEntry)
    (h : List PersonaHistoryEntry) : (pushHistory entry h).length ≤ 10 := by
  simp [pushHistory, List.length_take]

theorem handleSavePersona_history_bounded (gw : SaveGateway) (now : Nat) (ts : String)
    (personas : List Persona) (draft : PersonaState) (draftId : Option String)
    (hb : ∀ p ∈ personas, p.history.length ≤ 10) :
    ∀ q ∈ (handleSavePersona gw now ts personas draft draftId).1,
      q.history.length ≤ 10 := by
  intro q hq
  unfold handleSavePersona at hq
  dsimp only at hq
  split at hq
  · rw [List.mem_map] at hq
    obtain ⟨p, hp, hpq⟩ := hq
    subst hpq
    split
    · exact pushHistory_length_le _ _
    · exact hb p hp
  · rcases List.mem_append.mp hq with hmem | hmem
    · exact hb q hmem
    · rw [List.mem_singleton] at hmem
      subst hmem
      simp

theorem saveSteps_history_bounded (steps : List SaveRequest) :
    ∀ personas : List Persona, (∀ p ∈ personas, p.history.length ≤ 10) →
      ∀ q ∈ saveSteps personas steps, q.history.length ≤ 10 := by
  induction steps with
  | nil => intro personas hb q hq; exact hb q hq
  | cons s rest ih =>
      intro personas hb q hq
      exact ih _ (handleSavePersona_history_bounded s.gw s.now s.ts personas
        s.draft s.draftId hb) q hq

/-- C1: for every persona and any sequence of saves of an existing
persona, the history list never exceeds 10 entries: each save of an
existing persona prepends one new entry and then truncates to the 10
most recent, so the 11th saved update evicts the oldest entry (the entry
at position 9 of the pre-save list is dropped). -/
theorem claim_history_bounded (entry : PersonaHistoryEntry)
    (h : List PersonaHistoryEntry) (personas : List Persona)
    (steps : List SaveRequest)
    (hb : ∀ p ∈ personas, p.history.length ≤ 10) :
    (pushHistory entry h).length ≤ 10 ∧
    (h.length = 10 →
      (pushHistory entry h).length = 10 ∧ pushHistory entry h = entry :: h.take 9) ∧
    (∀ q ∈ saveSteps personas steps, q.history.length ≤ 10) := by
  refine ⟨pushHistory_length_le entry h, fun hlen => ⟨?_, pushHistory_eq entry h⟩,
    saveSteps_history_bounded steps personas hb⟩
  simp [pushHistory, List.length_take, hlen]

/-- Witness for C1 at a concrete store, entry and save sequence. -/
theorem claim_history_bounded_witness :
    (pushHistory adaEntry (List.replicate 10 adaEntry)).length ≤ 10 ∧
    ((List.replicate 10 adaEntry).length = 10 →
      (pushHistory adaEntry (List.replicate 10 adaEntry)).length = 10 ∧
      pushHistory adaEntry (List.replicate 10 adaEntry) =
        adaEntry :: (List.replicate 10 adaEntry).take 9) ∧
    (∀ q ∈ saveSteps [adaPersona]
        [{ gw := gatewayAllFailed, now := 7, ts := "t1", draft := adaState
         , draftId := some "1" }], q.history.length ≤ 10) :=
  claim_history_bounded adaEntry (List.replicate 10 adaEntry) [adaPersona] _
    (by intro p hp; simp at hp; subst hp; simp [adaPersona])

/-- C2: the history entry created by a save of an existing persona
stores the pre-change stored state, and reverting to any history entry
sets the editor parameters to exactly the fields captured in the
snapshot, leaves the fields not in the snapshot (short forms) unchanged,
and clears any live undo snapshot. -/
theorem claim_save_snapshots_old_and_revert_restores (gw : SaveGateway)
    (now : Nat) (ts : String) (personas : List Persona) (draft : PersonaState)
    (draftId : Option String) (existing : Persona) (st : EditorState)
    (entry : PersonaHistoryEntry)
    (hfind : personas.find? (fun p => decide (draftId = some p.id)) = some existing) :
    ((handleSavePersona gw now ts personas draft draftId).2.history.head? =
      some { state := snapshotOf existing, timestamp := ts
           , changeSummary := generateChangeSummary gw.changeSummaryCall }) ∧
    (handleRevert st entry =
      { parameters := applySnapshot st.parameters entry.state
      , previousParameters := none }) ∧
    (handleRevert st entry).parameters.name = entry.state.name ∧
    (handleRevert st entry).parameters.role = entry.state.role ∧
    (handleRevert st entry).parameters.tone = entry.state.tone ∧
    (handleRevert st entry).parameters.personality = entry.state.personality ∧
    (handleRevert st entry).parameters.worldview = entry.state.worldview ∧
    (handleRevert st entry).parameters.experience = entry.state.experience ∧
    (handleRevert st entry).parameters.other = entry.state.other ∧
    (handleRevert st entry).parameters.summary = entry.state.summary ∧
    (handleRevert st entry).parameters.mbtiProfile = entry.state.mbtiProfile ∧
    (handleRevert st entry).parameters.sources = entry.state.sources ∧
    (handleRevert st entry).parameters.shortSummary = st.parameters.shortSummary ∧
    (handleRevert st entry).parameters.shortTone = st.parameters.shortTone ∧
    (handleRevert st entry).previousParameters = none := by
  refine ⟨?_, ?_, ?_, ?_, ?_, ?_, ?_, ?_, ?_, ?_, ?_, ?_, ?_, ?_, ?_⟩
  · unfold handleSavePersona
    rw [hfind]
    simp [pushHistory_eq]
  all_goals simp [handleRevert, applySnapshot]

/-- Witness for C2 at a concrete store, draft and history entry. -/
theorem claim_save_snapshots_old_and_revert_restores_witness :
    ((handleSavePersona gatewayAllFailed 7 "t1" [adaPersona] adaState
        (some "1")).2.history.head? =
      some { state := snapshotOf adaPersona, timestamp := "t1"
           , changeSummary := generateChangeSummary GatewayOutcome.failed }) ∧
    (handleRevert adaEditor adaEntry =
      { parameters := applySnapshot adaEditor.parameters adaEntry.state
      , previousParameters := none }) ∧
    (handleRevert adaEditor adaEntry).parameters.name = adaEntry.state.name ∧
    (handleRevert adaEditor adaEntry).parameters.role = adaEntry.state.role ∧
    (handleRevert adaEditor adaEntry).parameters.tone = adaEntry.state.tone ∧
    (handleRevert adaEditor adaEntry).parameters.personality =
      adaEntry.state.personality ∧
    (handleRevert adaEditor adaEntry).parameters.worldview =
      adaEntry.state.worldview ∧
    (handleRevert adaEditor adaEntry).parameters.experience =
      adaEntry.state.experience ∧
    (handleRevert adaEditor adaEntry).parameters.other = adaEntry.state.other ∧
    (handleRevert adaEditor adaEntry).parameters.summary = adaEntry.state.summary ∧
    (handleRevert adaEditor adaEntry).parameters.mbtiProfile =
      adaEntry.state.mbtiProfile ∧
    (handleRevert adaEditor adaEntry).parameters.sources = adaEntry.state.sources ∧
    (handleRevert adaEditor adaEntry).parameters.shortSummary =
      adaEditor.parameters.shortSummary ∧
    (handleRevert adaEditor adaEntry).parameters.shortTone =
      adaEditor.parameters.shortTone ∧
    (handleRevert adaEditor adaEntry).previousParameters = none :=
  claim_save_snapshots_old_and_revert_restores gatewayAllFailed 7 "t1" [adaPersona]
    adaState (some "1") adaPersona adaEditor adaEntry (by decide)

/-- C3: undo after a successful summary-sync restores the exact editor
parameters present immediately before the action and clears the snapshot;
undo with no snapshot armed is a no-op; two such actions in sequence
without undoing leave only the second action pre-state in the single
slot. -/
theorem claim_undo_single_slot (st : EditorState) (e1 e2 : ExtractedParams)
    (h1 : jsTrim st.parameters.summary ≠ "") :
    handleUndo (handleSyncFromSummary st (ExtractOutcome.ok e1)) =
      { parameters := st.parameters, previousParameters := none } ∧
    (st.previousParameters = none → handleUndo st = st) ∧
    (handleSyncFromSummary (handleSyncFromSummary st (ExtractOutcome.ok e1))
        (ExtractOutcome.ok e2)).previousParameters =
      some (mergeExtracted st.parameters e1) := by
  have hsum : (mergeExtracted st.parameters e1).summary = st.parameters.summary := by
    simp [mergeExtracted]
  refine ⟨?_, ?_, ?_⟩
  · simp [handleSyncFromSummary, h1, handleUndo]
  · intro hnone
    simp [handleUndo, hnone]
  · simp [handleSyncFromSummary, h1, hsum]

/-- Witness for C3 at a concrete editor state and extraction results. -/
theorem claim_undo_single_slot_witness :
    handleUndo (handleSyncFromSummary adaEditor (ExtractOutcome.ok detectiveParams)) =
      { parameters := adaEditor.parameters, previousParameters := none } ∧
    (adaEditor.previousParameters = none → handleUndo adaEditor = adaEditor) ∧
    (handleSyncFromSummary
        (handleSyncFromSummary adaEditor (ExtractOutcome.ok detectiveParams))
        (ExtractOutcome.ok detectiveParams)).previousParameters =
      some (mergeExtracted adaEditor.parameters detectiveParams) :=
  claim_undo_single_slot adaEditor detectiveParams detectiveParams (by decide)

/-- C4: when a sync or document-extraction gateway call fails, the undo
snapshot armed before the call ends up cleared, the parameters present
before the call stay the active parameters, and a subsequent undo finds
no snapshot and changes nothing. -/
theorem claim_failed_call_clears_undo (st : EditorState) (refText : String)
    (h1 : jsTrim st.parameters.summary ≠ "") (h2 : refText ≠ "") :
    handleSyncFromSummary st ExtractOutcome.failed =
      { parameters := st.parameters, previousParameters := none } ∧
    handleExtractFromDoc st refText ExtractOutcome.failed =
      { parameters := st.parameters, previousParameters := none } ∧
    handleUndo (handleSyncFromSummary st ExtractOutcome.failed) =
      { parameters := st.parameters, previousParameters := none } ∧
    handleUndo (handleExtractFromDoc st refText ExtractOutcome.failed) =
      { parameters := st.parameters, previousParameters := none } := by
  refine ⟨?_, ?_, ?_, ?_⟩ <;>
    simp [handleSyncFromSummary, handleExtractFromDoc, handleUndo, h1, h2]

/-- Witness for C4 at a concrete editor state and reference document. -/
theorem claim_failed_call_clears_undo_witness :
    handleSyncFromSummary adaEditor ExtractOutcome.failed =
      { parameters := adaEditor.parameters, previousParameters := none } ∧
    handleExtractFromDoc adaEditor "doc" ExtractOutcome.failed =
      { parameters := adaEditor.parameters, previousParameters := none } ∧
    handleUndo (handleSyncFromSummary adaEditor ExtractOutcome.failed) =
      { parameters := adaEditor.parameters, previousParameters := none } ∧
    handleUndo (handleExtractFromDoc adaEditor "doc" ExtractOutcome.failed) =
      { parameters := adaEditor.parameters, previousParameters := none } :=
  claim_failed_call_clears_undo adaEditor "doc" (by decide) (by decide)

/-- C5: saving a draft whose name is empty is rejected with the
validation message; the store save is never invoked, so no history
entry, no identity assignment and no collection change occur. -/
theorem claim_empty_name_rejected (gw : SaveGateway) (now : Nat) (ts : String)
    (personas : List Persona) (draft : PersonaState) (draftId : Option String)
    (h : draft.name = "") :
    saveFromEditor gw now ts personas draft draftId =
      Except.error "Persona name is required." := by
  simp [saveFromEditor, h]

/-- Witness for C5 at a concrete nameless draft. -/
theorem claim_empty_name_rejected_witness :
    saveFromEditor gatewayAllFailed 7 "t1" [adaPersona]
      { adaState with name := "" } (some "1") =
      Except.error "Persona name is required." :=
  claim_empty_name_rejected gatewayAllFailed 7 "t1" [adaPersona]
    { adaState with name := "" } (some "1") rfl

/-- C6 counterexample: in a save of an existing persona where every
gateway call fails, the short-summary derivation does not fall back to
the empty string: with draft summary "hello" the saved shortSummary is
the truncation fallback "hello", which is non-empty. -/
theorem claim_gateway_failure_save_counterexample :
    (handleSavePersona gatewayAllFailed 5 "t1" [adaPersona] adaState
       (some "1")).2.state.shortSummary = "hello" ∧
    (handleSavePersona gatewayAllFailed 5 "t1" [adaPersona] adaState
       (some "1")).2.state.shortSummary ≠ "" := by
  decide

/-- C6 amended: a gateway failure in the save-time derivations never
aborts the save of an existing persona: the save still completes,
substituting the 50-character truncation of the input for the
short-summary and short-tone derivations (the empty string only when
the input itself is blank) and the fixed generic description for the
change summary, and the collection is updated by replacing the matched
persona. -/
theorem claim_gateway_failure_save_completes (now : Nat) (ts : String)
    (personas : List Persona) (draft : PersonaState) (draftId : Option String)
    (existing : Persona)
    (hfind : personas.find? (fun p => decide (draftId = some p.id)) = some existing)
    (hs : jsTrim draft.summary ≠ "") (ht : jsTrim draft.tone ≠ "") :
    (handleSavePersona gatewayAllFailed now ts personas draft
        draftId).2.state.shortSummary = truncate50 draft.summary ∧
    (handleSavePersona gatewayAllFailed now ts personas draft
        draftId).2.state.shortTone = truncate50 draft.tone ∧
    (handleSavePersona gatewayAllFailed now ts personas draft
        draftId).2.history.head? =
      some { state := snapshotOf existing, timestamp := ts
           , changeSummary := genericChangeText } ∧
    (handleSavePersona gatewayAllFailed now ts personas draft draftId).1 =
      personas.map (fun p => if p.id = existing.id then
        (handleSavePersona gatewayAllFailed now ts personas draft draftId).2
        else p) := by
  have hne : draft.summary ≠ "" := fun he => hs (by rw [he, jsTrim_empty])
  have hte : draft.tone ≠ "" := fun he => ht (by rw [he, jsTrim_empty])
  unfold handleSavePersona
  rw [hfind]
  simp [generateShortSummary, generateShortTone, generateChangeSummary,
    gatewayAllFailed, hne, hte, hs, ht, pushHistory_eq]

/-- Witness for the amended C6 at a concrete store and draft. -/
theorem claim_gateway_failure_save_completes_witness :
    (handleSavePersona gatewayAllFailed 5 "t1" [adaPersona]
        { adaState with tone := "curt" } (some "1")).2.state.shortSummary =
      truncate50 { adaState with tone := "curt" }.summary ∧
    (handleSavePersona gatewayAllFailed 5 "t1" [adaPersona]
        { adaState with tone := "curt" } (some "1")).2.state.shortTone =
      truncate50 { adaState with tone := "curt" }.tone ∧
    (handleSavePersona gatewayAllFailed 5 "t1" [adaPersona]
        { adaState with tone := "curt" } (some "1")).2.history.head? =
      some { state := snapshotOf adaPersona, timestamp := "t1"
           , changeSummary := genericChangeText } ∧
    (handleSavePersona gatewayAllFailed 5 "t1" [adaPersona]
        { adaState with tone := "curt" } (some "1")).1 =
      [adaPersona].map (fun p => if p.id = adaPersona.id then
        (handleSavePersona gatewayAllFailed 5 "t1" [adaPersona]
          { adaState with tone := "curt" } (some "1")).2 else p) :=
  claim_gateway_failure_save_completes 5 "t1" [adaPersona]
    { adaState with tone := "curt" } (some "1") adaPersona (by decide)
    (by decide) (by decide)

/-- C7: merging a document-extraction result whose other field is empty
over a state with a non-empty other preserves the existing other value,
while the schema fields name, role, tone, personality, worldview and
experience take the extracted values; on success the document extraction
applies exactly this merge and arms the undo slot. -/
theorem claim_doc_merge_preserves_other (p : PersonaState) (e : ExtractedParams)
    (st : EditorState) (refText : String)
    (hother : p.other ≠ "") (_hext : e.other.getD "" = "") :
    (mergeExtractedDoc p e).other = p.other ∧
    (mergeExtractedDoc p e).name = e.name ∧
    (mergeExtractedDoc p e).role = e.role ∧
    (mergeExtractedDoc p e).tone = e.tone ∧
    (mergeExtractedDoc p e).personality = e.personality ∧
    (mergeExtractedDoc p e).worldview = e.worldview ∧
    (mergeExtractedDoc p e).experience = e.experience ∧
    (refText ≠ "" → handleExtractFromDoc st refText (ExtractOutcome.ok e) =
      { parameters := mergeExtractedDoc st.parameters e
      , previousParameters := some st.parameters }) := by
  refine ⟨?_, ?_, ?_, ?_, ?_, ?_, ?_, fun h2 => ?_⟩
  · simp [mergeExtractedDoc, jsOrElse, hother]
  · simp [mergeExtractedDoc, mergeExtracted]
  · simp [mergeExtractedDoc, mergeExtracted]
  · simp [mergeExtractedDoc, mergeExtracted]
  · simp [mergeExtractedDoc, mergeExtracted]
  · simp [mergeExtractedDoc, mergeExtracted]
  · simp [mergeExtractedDoc, mergeExtracted]
  · simp [handleExtractFromDoc, h2]

/-- Witness for C7 at a concrete state and extraction result. -/
theorem claim_doc_merge_preserves_other_witness :
    (mergeExtractedDoc { adaState with other := "notes" } detectiveParams).other =
      { adaState with other := "notes" }.other ∧
    (mergeExtractedDoc { adaState with other := "notes" } detectiveParams).name =
      detectiveParams.name ∧
    (mergeExtractedDoc { adaState with other := "notes" } detectiveParams).role =
      detectiveParams.role ∧
    (mergeExtractedDoc { adaState with other := "notes" } detectiveParams).tone =
      detectiveParams.tone ∧
    (mergeExtractedDoc { adaState with other := "notes" }
        detectiveParams).personality = detectiveParams.personality ∧
    (mergeExtractedDoc { adaState with other := "notes" } detectiveParams).worldview =
      detectiveParams.worldview ∧
    (mergeExtractedDoc { adaState with other := "notes" }
        detectiveParams).experience = detectiveParams.experience ∧
    ("doc" ≠ "" → handleExtractFromDoc adaEditor "doc"
        (ExtractOutcome.ok detectiveParams) =
      { parameters := mergeExtractedDoc adaEditor.parameters detectiveParams
      , previousParameters := some adaEditor.parameters }) :=
  claim_doc_merge_preserves_other { adaState with other := "notes" }
    detectiveParams adaEditor "doc" (by decide) (by decide)

/-- C8: under trailing-edge debouncing with a 1.5 second window, the
edit sequence at 0 ms, 500 ms and 1000 ms produces exactly one fire,
scheduled 1500 ms after the last edit and carrying the state of that
last edit; in general any call arriving strictly inside the window of
the previous call cancels that call and restarts the timer. -/
theorem claim_debounce_single_fire (a b c x y : PersonaState) (wait t u : Nat)
    (rest : List (Nat × PersonaState)) (hin : u < t + wait) :
    debounceFires 1500 [(0, a), (500, b), (1000, c)] = [(1000 + 1500, c)] ∧
    debounceFires wait ((t, x) :: (u, y) :: rest) =
      debounceFires wait ((u, y) :: rest) := by
  refine ⟨rfl, ?_⟩
  rw [debounceFires, if_pos hin]

/-- Witness for C8 at concrete times and states. -/
theorem claim_debounce_single_fire_witness :
    debounceFires 1500 [(0, adaState), (500, adaState), (1000, adaState)] =
      [(1000 + 1500, adaState)] ∧
    debounceFires 1500 [(0, adaState), (500, adaState)] =
      debounceFires 1500 [(500, adaState)] :=
  claim_debounce_single_fire adaState adaState adaState adaState adaState
    1500 0 500 [] (by decide)

/-- C9: the summary-regeneration request is built from the parameters
with the summary field blanked, and when the name is empty the handler
fails fast: no request is built and the editor state is unchanged. -/
theorem claim_summary_request_blanked (p : PersonaState) (st : EditorState)
    (call : GatewayOutcome) (hname : p.name ≠ "")
    (hempty : st.parameters.name = "") :
    buildSummaryRequest p = some { p with summary := "" } ∧
    buildSummaryRequest st.parameters = none ∧
    handleGenerateSummary st call = st := by
  refine ⟨?_, ?_, ?_⟩ <;>
    simp [buildSummaryRequest, handleGenerateSummary, hname, hempty]

/-- Witness for C9 at a concrete named state and a nameless editor. -/
theorem claim_summary_request_blanked_witness :
    buildSummaryRequest adaState = some { adaState with summary := "" } ∧
    buildSummaryRequest namelessEditor.parameters = none ∧
    handleGenerateSummary namelessEditor GatewayOutcome.failed = namelessEditor :=
  claim_summary_request_blanked adaState namelessEditor
    GatewayOutcome.failed (by decide) rfl

/-- C10 counterexample: ids can be duplicated across personas held at
the same time: inserting a new persona when the millisecond clock reads
100 into a store already holding a persona with id "100" yields two
personas with id "100". -/
theorem claim_id_uniqueness_counterexample :
    ((handleSavePersona gatewayAllFailed 100 "t1"
        [{ id := "100", state := adaState, history := [] }] adaState none).1.map
      Persona.id) = ["100", "100"] ∧
    ¬ (((handleSavePersona gatewayAllFailed 100 "t1"
        [{ id := "100", state := adaState, history := [] }] adaState none).1.map
      Persona.id).Nodup) := by
  decide

/-- C10 amended: a save of an existing persona never reassigns any id
(the list of ids is unchanged and the saved persona keeps the matched
id); a save with no match appends exactly one persona whose id is the
string of the creation clock, and pairwise distinctness of ids is
preserved provided that freshly assigned id differs from every id
already in the store. -/
theorem claim_id_stable_and_unique_when_fresh (gw : SaveGateway) (now : Nat)
    (ts : String) (personas : List Persona) (draft : PersonaState)
    (draftId : Option String) :
    (∀ existing : Persona,
      personas.find? (fun p => decide (draftId = some p.id)) = some existing →
        (handleSavePersona gw now ts personas draft draftId).1.map Persona.id =
          personas.map Persona.id ∧
        (handleSavePersona gw now ts personas draft draftId).2.id = existing.id) ∧
    (personas.find? (fun p => decide (draftId = some p.id)) = none →
      (handleSavePersona gw now ts personas draft draftId).1.map Persona.id =
        personas.map Persona.id ++ [toString now] ∧
      (toString now ∉ personas.map Persona.id →
        (personas.map Persona.id).Nodup →
        ((handleSavePersona gw now ts personas draft draftId).1.map
          Persona.id).Nodup)) := by
  constructor
  · intro existing hfind
    unfold handleSavePersona
    rw [hfind]
    refine ⟨?_, rfl⟩
    rw [List.map_map]
    apply List.map_congr_left
    intro p _
    by_cases hid : p.id = existing.id
    · simp [hid]
    · simp [hid]
  · intro hfind
    unfold handleSavePersona
    rw [hfind]
    refine ⟨by simp, fun hfresh hnodup => ?_⟩
    simp [List.nodup_append, hnodup, hfresh]

/-- Witness for the amended C10, exercising both the update branch and
the fresh-insert branch at concrete stores. -/
theorem claim_id_stable_and_unique_when_fresh_witness :
    ((handleSavePersona gatewayAllFailed 7 "t1" [adaPersona] adaState
        (some "1")).1.map Persona.id = [adaPersona].map Persona.id ∧
      (handleSavePersona gatewayAllFailed 7 "t1" [adaPersona] adaState
        (some "1")).2.id = adaPersona.id) ∧
    ((handleSavePersona gatewayAllFailed 7 "t1" [adaPersona] adaState
        none).1.map Persona.id = [adaPersona].map Persona.id ++ [toString 7] ∧
      ((handleSavePersona gatewayAllFailed 7 "t1" [adaPersona] adaState
        none).1.map Persona.id).Nodup) :=
  ⟨(claim_id_stable_and_unique_when_fresh gatewayAllFailed 7 "t1" [adaPersona]
      adaState (some "1")).1 adaPersona (by decide),
   ⟨((claim_id_stable_and_unique_when_fresh gatewayAllFailed 7 "t1" [adaPersona]
      adaState none).2 (by decide)).1,
    ((claim_id_stable_and_unique_when_fresh gatewayAllFailed 7 "t1" [adaPersona]
      adaState none).2 (by decide)).2 (by decide) (by decide)⟩⟩

end AdaVoice
